import Mathlib

/-!
Shallow embedding of the `egui-opengl-internal` crate (files `input.rs`,
`app.rs`) and proofs about its input collector and overlay host.

Machine integers are modelled as `Nat` bit patterns (`wparam : usize`,
`lparam`'s 64-bit pattern) with explicit `% 2 ^ w` where the source
truncates, and signed reinterpretation made explicit (`toI16`).  Floating
point wheel/zoom arithmetic is modelled over `Rat`; every value the claims
mention (10.0, 1.5, 0.5, integer coordinates) is exactly representable in
`f32`, and the only f32 comparison involved (`delta > 0.`) agrees with the
rational sign since f32 rounding of `x * 10. / 120.` preserves sign.
OS interactions (`GetAsyncKeyState`, clipboard, `GetClientRect`,
`NtQuerySystemTime`, `WindowFromDC`, `wgl*`) are threaded through explicit
environment records.  Rust panics (`unreachable!`, `unwrap`, `panic_msg!`)
are modelled as `Option`/`Except` failure values.
-/

/-- Bit pattern of a `usize`/`u32` reinterpreted as `i16` after truncation
to the low 16 bits (Rust `as i16`). -/
def toI16 (n : Nat) : Int :=
  let m := n % 65536
  if m < 32768 then (m : Int) else (m : Int) - 65536

/-- Model of the external egui `Key` enum: a wrapper around the enum
discriminant byte.  The source resolves keys by `transmute`-ing arithmetic
offsets into this enum, so the discriminant is the faithful carrier; the
named constants below list the variants of the egui `Key` declaration in
order.  The crate's own unit test `test_key_map` pins `Num0`, `Num9`, `A`,
`Z`, `F1`, `F20` to exactly the discriminants produced here. -/
structure Key where
  code : Nat
deriving DecidableEq, Repr

def Key.ArrowDown : Key := ⟨0⟩

def Key.ArrowLeft : Key := ⟨1⟩

def Key.ArrowRight : Key := ⟨2⟩

def Key.ArrowUp : Key := ⟨3⟩

def Key.Escape : Key := ⟨4⟩

def Key.Tab : Key := ⟨5⟩

def Key.Backspace : Key := ⟨6⟩

def Key.Enter : Key := ⟨7⟩

def Key.Space : Key := ⟨8⟩

def Key.Insert : Key := ⟨9⟩

def Key.Delete : Key := ⟨10⟩

def Key.Home : Key := ⟨11⟩

def Key.End : Key := ⟨12⟩

def Key.PageUp : Key := ⟨13⟩

def Key.PageDown : Key := ⟨14⟩

/-- Digit keys start at discriminant 32 (`Num0`). -/
def Key.Num0 : Key := ⟨32⟩

def Key.Num9 : Key := ⟨41⟩

/-- Letter keys start at discriminant 42 (`A`). -/
def Key.A : Key := ⟨42⟩

def Key.C : Key := ⟨44⟩

def Key.V : Key := ⟨63⟩

def Key.X : Key := ⟨65⟩

def Key.Z : Key := ⟨67⟩

/-- Function keys start at discriminant 68 (`F1`). -/
def Key.F1 : Key := ⟨68⟩

def Key.F20 : Key := ⟨87⟩

/-- egui `Modifiers`. -/
structure Modifiers where
  alt : Bool
  ctrl : Bool
  shift : Bool
  mac_cmd : Bool
  command : Bool
deriving DecidableEq, Repr

/-- `Modifiers::NONE`, also the `Default::default()` value. -/
def Modifiers.NONE : Modifiers :=
  { alt := false, ctrl := false, shift := false, mac_cmd := false, command := false }

/-- egui `Pos2`; coordinates here are always exact small integers in f32. -/
structure Pos2 where
  x : Int
  y : Int
deriving DecidableEq, Repr

/-- egui `Vec2` as used for wheel deltas; modelled over `Rat`. -/
structure Vec2 where
  x : Rat
  y : Rat
deriving DecidableEq, Repr

inductive MouseWheelUnit where
  | Point
  | Line
  | Page
deriving DecidableEq, Repr

inductive PointerButton where
  | Primary
  | Secondary
  | Middle
  | Extra1
  | Extra2
deriving DecidableEq, Repr

/-- The egui `Event` variants produced by `input.rs`. -/
inductive Event where
  | PointerMoved (pos : Pos2)
  | PointerButton (pos : Pos2) (button : PointerButton) (pressed : Bool)
      (modifiers : Modifiers)
  | Text (s : String)
  | Copy
  | Cut
  | MouseWheel (unit : MouseWheelUnit) (delta : Vec2) (modifiers : Modifiers)
  | Zoom (factor : Rat)
  | Key (pressed : Bool) (modifiers : Modifiers) (key : Key) (repeated : Bool)
      (physical_key : Option Key)
deriving DecidableEq, Repr

/-- `InputResult` from `input.rs`. -/
inductive InputResult where
  | Unknown
  | MouseMove
  | MouseLeft
  | MouseRight
  | MouseMiddle
  | Character
  | Scroll
  | Zoom
  | Key
deriving DecidableEq, Repr

/-- Win32 `RECT`. -/
structure RECT where
  left : Int
  top : Int
  right : Int
  bottom : Int
deriving DecidableEq, Repr

/-- Environment for the input collector: results of the OS queries it
performs.  `asyncCtrl`/`asyncShift` model `GetAsyncKeyState(VK_CONTROL) != 0`
and `GetAsyncKeyState(VK_LSHIFT) != 0`; `clipboard` models
`WindowsClipboardContext.get_contents().ok()`; `clientRect` models
`GetClientRect` per window handle; `systemTime` models the raw
`NtQuerySystemTime` value (100ns intervals). -/
structure InputEnv where
  asyncCtrl : Bool
  asyncShift : Bool
  clipboard : Option String
  clientRect : Nat → RECT
  systemTime : Int

/-- The slice of the external egui `Context` that `collect_input` reads
(`viewport_id()` and the raw viewports, both opaque here). -/
structure EguiCtx where
  viewport_id : Nat
  viewports : Nat
deriving DecidableEq, Repr

/-- `InputCollector` state. -/
structure InputCollector where
  hwnd : Nat
  events : List Event
  modifiers : Option Modifiers
deriving DecidableEq, Repr

/-- `InputCollector::new`. -/
def InputCollector.new (hwnd : Nat) : InputCollector :=
  { hwnd := hwnd, events := [], modifiers := none }

-- Window-message and key constants from the Win32 headers used by the source.
def WM_MOUSEMOVE : Nat := 0x0200

def WM_LBUTTONDOWN : Nat := 0x0201

def WM_LBUTTONUP : Nat := 0x0202

def WM_LBUTTONDBLCLK : Nat := 0x0203

def WM_RBUTTONDOWN : Nat := 0x0204

def WM_RBUTTONUP : Nat := 0x0205

def WM_RBUTTONDBLCLK : Nat := 0x0206

def WM_MBUTTONDOWN : Nat := 0x0207

def WM_MBUTTONUP : Nat := 0x0208

def WM_MBUTTONDBLCLK : Nat := 0x0209

def WM_MOUSEWHEEL : Nat := 0x020A

def WM_XBUTTONDOWN : Nat := 0x020B

def WM_XBUTTONUP : Nat := 0x020C

def WM_XBUTTONDBLCLK : Nat := 0x020D

def WM_MOUSEHWHEEL : Nat := 0x020E

def WM_KEYDOWN : Nat := 0x0100

def WM_KEYUP : Nat := 0x0101

def WM_CHAR : Nat := 0x0102

def WM_SYSKEYDOWN : Nat := 0x0104

def WM_SYSKEYUP : Nat := 0x0105

def WM_UNICHAR : Nat := 0x0109

def MK_CONTROL : Nat := 0x0008

def MK_SHIFT : Nat := 0x0004

def WHEEL_DELTA : Nat := 120

def KF_REPEAT : Nat := 0x4000

def XBUTTON1 : Nat := 1

def XBUTTON2 : Nat := 2

def VK_BACK : Nat := 0x08

def VK_TAB : Nat := 0x09

def VK_RETURN : Nat := 0x0D

def VK_ESCAPE : Nat := 0x1B

def VK_SPACE : Nat := 0x20

def VK_PRIOR : Nat := 0x21

def VK_NEXT : Nat := 0x22

def VK_END : Nat := 0x23

def VK_HOME : Nat := 0x24

def VK_LEFT : Nat := 0x25

def VK_UP : Nat := 0x26

def VK_RIGHT : Nat := 0x27

def VK_DOWN : Nat := 0x28

def VK_INSERT : Nat := 0x2D

def VK_DELETE : Nat := 0x2E

/-- `get_pos`: decode a pointer position from the low/high 16-bit halves of
`lparam`, each reinterpreted as signed 16-bit. -/
def get_pos (lparam : Nat) : Pos2 :=
  { x := toI16 (lparam &&& 0xFFFF), y := toI16 ((lparam >>> 16) &&& 0xFFFF) }

/-- `get_mouse_modifiers`: ctrl/shift from the message's button-state bits;
alt and mac_cmd are never derivable from mouse messages. -/
def get_mouse_modifiers (wparam : Nat) : Modifiers :=
  { alt := false
    ctrl := wparam &&& MK_CONTROL != 0
    shift := wparam &&& MK_SHIFT != 0
    mac_cmd := false
    command := wparam &&& MK_CONTROL != 0 }

/-- `get_key_modifiers`: ctrl and shift from live `GetAsyncKeyState`
queries, alt from whether the message equals `WM_SYSKEYDOWN`. -/
def get_key_modifiers (env : InputEnv) (msg : Nat) : Modifiers :=
  { alt := msg == WM_SYSKEYDOWN
    mac_cmd := false
    command := env.asyncCtrl
    shift := env.asyncShift
    ctrl := env.asyncCtrl }

/-- `get_key`: the three contiguous arithmetic ranges (digits, letters,
function keys), then the explicit `VIRTUAL_KEY` lookup.  The fallback
truncates `wparam` to `u16` (`VIRTUAL_KEY(wparam as u16)`), modelled by
`% 65536`. -/
def get_key (wparam : Nat) : Option Key :=
  if 0x30 ≤ wparam ∧ wparam ≤ 0x39 then some ⟨wparam - 0x10⟩
  else if 0x41 ≤ wparam ∧ wparam ≤ 0x5A then some ⟨wparam - 0x17⟩
  else if 0x70 ≤ wparam ∧ wparam ≤ 0x83 then some ⟨wparam - 0x2C⟩
  else
    let vk := wparam % 65536
    if vk = VK_DOWN then some Key.ArrowDown
    else if vk = VK_LEFT then some Key.ArrowLeft
    else if vk = VK_RIGHT then some Key.ArrowRight
    else if vk = VK_UP then some Key.ArrowUp
    else if vk = VK_ESCAPE then some Key.Escape
    else if vk = VK_TAB then some Key.Tab
    else if vk = VK_BACK then some Key.Backspace
    else if vk = VK_RETURN then some Key.Enter
    else if vk = VK_SPACE then some Key.Space
    else if vk = VK_INSERT then some Key.Insert
    else if vk = VK_DELETE then some Key.Delete
    else if vk = VK_HOME then some Key.Home
    else if vk = VK_END then some Key.End
    else if vk = VK_PRIOR then some Key.PageUp
    else if vk = VK_NEXT then some Key.PageDown
    else none

/-- `get_clipboard_text`: `WindowsClipboardContext.get_contents().ok()`. -/
def get_clipboard_text (env : InputEnv) : Option String :=
  env.clipboard

/-- Rust `char::from_u32`. -/
def char_from_u32 (n : Nat) : Option Char :=
  if n < 0xd800 ∨ (0xdfff < n ∧ n < 0x110000) then some (Char.ofNat n)
  else none

/-- Rust `char::is_control` (Unicode category Cc). -/
def char_is_control (c : Char) : Bool :=
  c.toNat < 0x20 || (0x7F ≤ c.toNat && c.toNat ≤ 0x9F)

/-- `InputCollector::alter_modifiers`: overwrite the snapshot only when one
has already been observed. -/
def InputCollector.alter_modifiers (c : InputCollector) (new : Modifiers) :
    InputCollector :=
  match c.modifiers with
  | some _ => { c with modifiers := some new }
  | none => c

/-- Append one event to the pending queue (`self.events.push(..)`). -/
def InputCollector.push (c : InputCollector) (e : Event) : InputCollector :=
  { c with events := c.events ++ [e] }

/-- `WM_CHAR` / `WM_UNICHAR` body: decode `wparam as u32`, drop the 0xFFFF
sentinel, invalid code points and control characters, else push a text
event. -/
def InputCollector.pushChar (c : InputCollector) (wparam : Nat) :
    InputCollector :=
  let unicode_char := wparam % 2 ^ 32
  if unicode_char ≠ 0xFFFF then
    match char_from_u32 unicode_char with
    | some ch =>
        if ¬ char_is_control ch then c.push (Event.Text (String.singleton ch))
        else c
    | none => c
  else c

/-- Wheel delta: `(wparam >> 16) as i16 as f32 * 10. / WHEEL_DELTA as f32`,
over `Rat`. -/
def wheel_delta (wparam : Nat) : Rat :=
  (toI16 (wparam >>> 16) * 10 : Rat) / (WHEEL_DELTA : Rat)

/-- `InputCollector::process`.  `wparam` and `lparam` are the 64-bit bit
patterns of the raw parameters.  Returns `none` where the source panics
(the `unreachable!()` arms for extra mouse buttons). -/
def InputCollector.process (env : InputEnv) (c : InputCollector)
    (umsg wparam lparam : Nat) : Option (InputCollector × InputResult) :=
  if umsg = WM_MOUSEMOVE then
    let c := c.alter_modifiers (get_mouse_modifiers wparam)
    some (c.push (Event.PointerMoved (get_pos lparam)), InputResult.MouseMove)
  else if umsg = WM_LBUTTONDOWN ∨ umsg = WM_LBUTTONDBLCLK then
    let modifiers := get_mouse_modifiers wparam
    let c := c.alter_modifiers modifiers
    some (c.push (Event.PointerButton (get_pos lparam) PointerButton.Primary
      true modifiers), InputResult.MouseLeft)
  else if umsg = WM_LBUTTONUP then
    let modifiers := get_mouse_modifiers wparam
    let c := c.alter_modifiers modifiers
    some (c.push (Event.PointerButton (get_pos lparam) PointerButton.Primary
      false modifiers), InputResult.MouseLeft)
  else if umsg = WM_RBUTTONDOWN ∨ umsg = WM_RBUTTONDBLCLK then
    let modifiers := get_mouse_modifiers wparam
    let c := c.alter_modifiers modifiers
    some (c.push (Event.PointerButton (get_pos lparam) PointerButton.Secondary
      true modifiers), InputResult.MouseRight)
  else if umsg = WM_RBUTTONUP then
    let modifiers := get_mouse_modifiers wparam
    let c := c.alter_modifiers modifiers
    some (c.push (Event.PointerButton (get_pos lparam) PointerButton.Secondary
      false modifiers), InputResult.MouseRight)
  else if umsg = WM_MBUTTONDOWN ∨ umsg = WM_MBUTTONDBLCLK then
    let modifiers := get_mouse_modifiers wparam
    let c := c.alter_modifiers modifiers
    some (c.push (Event.PointerButton (get_pos lparam) PointerButton.Middle
      true modifiers), InputResult.MouseMiddle)
  else if umsg = WM_MBUTTONUP then
    let modifiers := get_mouse_modifiers wparam
    let c := c.alter_modifiers modifiers
    some (c.push (Event.PointerButton (get_pos lparam) PointerButton.Middle
      false modifiers), InputResult.MouseMiddle)
  else if umsg = WM_XBUTTONDOWN ∨ umsg = WM_XBUTTONDBLCLK then
    let modifiers := get_mouse_modifiers wparam
    let c := c.alter_modifiers modifiers
    let hi := (wparam % 2 ^ 32) >>> 16
    if hi &&& XBUTTON1 ≠ 0 then
      some (c.push (Event.PointerButton (get_pos lparam) PointerButton.Extra1
        true modifiers), InputResult.MouseMiddle)
    else if hi &&& XBUTTON2 ≠ 0 then
      some (c.push (Event.PointerButton (get_pos lparam) PointerButton.Extra2
        true modifiers), InputResult.MouseMiddle)
    else none
  else if umsg = WM_XBUTTONUP then
    let modifiers := get_mouse_modifiers wparam
    let c := c.alter_modifiers modifiers
    let hi := (wparam % 2 ^ 32) >>> 16
    if hi &&& XBUTTON1 ≠ 0 then
      some (c.push (Event.PointerButton (get_pos lparam) PointerButton.Extra1
        false modifiers), InputResult.MouseMiddle)
    else if hi &&& XBUTTON2 ≠ 0 then
      some (c.push (Event.PointerButton (get_pos lparam) PointerButton.Extra2
        false modifiers), InputResult.MouseMiddle)
    else none
  else if umsg = WM_UNICHAR then
    some (c.pushChar wparam, InputResult.Character)
  else if umsg = WM_CHAR then
    some (c.pushChar wparam, InputResult.Character)
  else if umsg = WM_MOUSEWHEEL then
    let c := c.alter_modifiers (get_mouse_modifiers wparam)
    let delta := wheel_delta wparam
    if wparam &&& MK_CONTROL ≠ 0 then
      some (c.push (Event.Zoom (if 0 < delta then (3 : Rat) / 2 else (1 : Rat) / 2)),
        InputResult.Zoom)
    else
      some (c.push (Event.MouseWheel MouseWheelUnit.Point ⟨0, delta⟩
        Modifiers.NONE), InputResult.Scroll)
  else if umsg = WM_MOUSEHWHEEL then
    let c := c.alter_modifiers (get_mouse_modifiers wparam)
    let delta := wheel_delta wparam
    if wparam &&& MK_CONTROL ≠ 0 then
      some (c.push (Event.Zoom (if 0 < delta then (3 : Rat) / 2 else (1 : Rat) / 2)),
        InputResult.Zoom)
    else
      some (c.push (Event.MouseWheel MouseWheelUnit.Point ⟨0, delta⟩
        Modifiers.NONE), InputResult.Scroll)
  else if umsg = WM_KEYDOWN ∨ umsg = WM_SYSKEYDOWN then
    let modifiers := get_key_modifiers env umsg
    let c := { c with modifiers := some modifiers }
    let c :=
      match get_key wparam with
      | some key =>
          let c :=
            if key = Key.V ∧ modifiers.ctrl then
              match get_clipboard_text env with
              | some clipboard => c.push (Event.Text clipboard)
              | none => c
            else c
          let c := if key = Key.C ∧ modifiers.ctrl then c.push Event.Copy else c
          let c := if key = Key.X ∧ modifiers.ctrl then c.push Event.Cut else c
          c.push (Event.Key true modifiers key (lparam &&& KF_REPEAT > 0) none)
      | none => c
    some (c, InputResult.Key)
  else if umsg = WM_KEYUP ∨ umsg = WM_SYSKEYUP then
    let modifiers := get_key_modifiers env umsg
    let c := { c with modifiers := some modifiers }
    let c :=
      match get_key wparam with
      | some key =>
          c.push (Event.Key false modifiers key (lparam &&& KF_REPEAT > 0) none)
      | none => c
    some (c, InputResult.Key)
  else
    some (c, InputResult.Unknown)

/-- egui `Rect` as built by `get_screen_rect`. -/
structure Rect where
  min : Pos2
  max : Pos2
deriving DecidableEq, Repr

/-- `get_screen_size`: client-area width/height of the collector's window. -/
def InputCollector.get_screen_size (env : InputEnv) (c : InputCollector) :
    Pos2 :=
  let rect := env.clientRect c.hwnd
  { x := rect.right - rect.left, y := rect.bottom - rect.top }

/-- `get_screen_rect`. -/
def InputCollector.get_screen_rect (env : InputEnv) (c : InputCollector) :
    Rect :=
  { min := ⟨0, 0⟩, max := c.get_screen_size env }

/-- `get_system_time`: `NtQuerySystemTime` 100ns intervals converted to
seconds.  (The source treats a failing clock query as fatal; the
environment supplies the successfully-read value.) -/
def get_system_time (env : InputEnv) : Rat :=
  (env.systemTime : Rat) / 10000000

/-- The egui `RawInput` fields `collect_input` populates. -/
structure RawInput where
  modifiers : Modifiers
  events : List Event
  screen_rect : Option Rect
  time : Option Rat
  max_texture_side : Option Nat
  predicted_dt : Rat
  hovered_files : List Unit
  dropped_files : List Unit
  focused : Bool
  viewport_id : Nat
  viewports : Nat
deriving DecidableEq, Repr

/-- `InputCollector::collect_input`: build the snapshot and drain the queue
(`std::mem::take(&mut self.events)`).  Returns the snapshot together with
the post-state of the collector. -/
def InputCollector.collect_input (env : InputEnv) (ctx : EguiCtx)
    (c : InputCollector) : RawInput × InputCollector :=
  ({ modifiers := c.modifiers.getD Modifiers.NONE
     events := c.events
     screen_rect := some (c.get_screen_rect env)
     time := some (get_system_time env)
     max_texture_side := none
     predicted_dt := 1 / 60
     hovered_files := []
     dropped_files := []
     focused := true
     viewport_id := ctx.viewport_id
     viewports := ctx.viewports },
   { c with events := [] })

/-!  Overlay host (`app.rs`).  GL context handles (`HGLRC`), device
contexts (`HDC`) and window handles (`HWND`) are modelled as `Nat` bit
patterns; the null context is `0`. -/

/-- The sentinel pointer value `-1i32 as *mut c_void` checked by
`init_with_state_context` (sign-extended to 64 bits). -/
def INVALID_HWND : Nat := 2 ^ 64 - 1

/-- The fields of `AppData` that the modelled operations read or write.
The UI closure, egui context internals, painter and generic state are
external opaque values whose only modelled effects are carried by
`RenderEnv`. -/
structure AppData where
  gl_context : Nat
  window : Nat
  input_collector : InputCollector
  client_rect : Int × Int
deriving DecidableEq, Repr

/-- `get_client_rect`: client-area width/height of a window. -/
def get_client_rect (env : InputEnv) (window : Nat) : Int × Int :=
  let rect := env.clientRect window
  (rect.right - rect.left, rect.bottom - rect.top)

/-- Failure values for the fatal (panicking) paths of
`init_with_state_context`: `panic_msg!` for the two precondition checks and
`unwrap` on the two GL calls. -/
inductive InitErr where
  | doubleInit
  | invalidWindow
  | glCreateContextFailed
  | glMakeCurrentFailed
deriving DecidableEq, Repr

/-- Environment for initialization: results of the `wgl*` calls it makes.
`createContext` is the `wglCreateContext(hdc)` result (`none` = `Err`, so
the `unwrap` panics); `makeCurrentOk` tells whether `wglMakeCurrent(hdc, c)`
succeeds; `o_context` is the context current when init is entered. -/
structure InitEnv where
  o_context : Nat
  createContext : Option Nat
  makeCurrentOk : Nat → Nat → Bool
  inputEnv : InputEnv

/-- `OpenGLApp::init_with_state_context`, modelled on the `OnceCell`
content `hwndCell` (`self.hwnd.get()`).  Panics are `Except.error`.
On success returns the recorded hwnd and the constructed `AppData`. -/
def init_with_state_context (env : InitEnv) (hwndCell : Option Nat)
    (hdc window : Nat) : Except InitErr (Nat × AppData) :=
  if hwndCell.isSome then Except.error InitErr.doubleInit
  else if window = INVALID_HWND then Except.error InitErr.invalidWindow
  else
    match env.createContext with
    | none => Except.error InitErr.glCreateContextFailed
    | some gl_context =>
        if env.makeCurrentOk hdc gl_context then
          if env.makeCurrentOk hdc env.o_context then
            Except.ok (window,
              { gl_context := gl_context
                window := window
                input_collector := InputCollector.new window
                client_rect := (0, 0) })
          else Except.error InitErr.glMakeCurrentFailed
        else Except.error InitErr.glMakeCurrentFailed

/-- The slice of the egui `FullOutput` that `render` inspects: the shape
list (only its emptiness matters to control flow; shapes themselves are
opaque) and the platform output's `copied_text`. -/
structure FullOutput where
  shapes : List Unit
  copied_text : String
deriving DecidableEq, Repr

/-- Environment for one `render` call: the window `WindowFromDC` resolves,
whether each `wglMakeCurrent` succeeds, whether the clipboard write
succeeds, the UI pass output produced by `ctx.run`, and the input
environment for the drain. -/
structure RenderEnv where
  windowFromDC : Nat → Nat
  makeCurrentOk : Nat → Nat → Bool
  clipboardWriteOk : Bool
  uiOutput : FullOutput
  ctx : EguiCtx
  inputEnv : InputEnv

/-- Mutable world a `render` call acts on: the thread's current GL context
(`wglGetCurrentContext`; `0` = none), the OS clipboard, the process-wide
`Once` flag used by `poll_client_rect`, and the app data. -/
structure GlWorld where
  glCurrent : Nat
  clipboard : Option String
  onceFired : Bool
  app : AppData

/-- The window-resolution step at the top of `render` (app.rs lines
209-214): if `WindowFromDC(hdc)` differs from the recorded window, replace
the window, recreate the input collector for it, and reset the cached
client size from a fresh query of the new window; otherwise leave all
fields untouched. -/
def resolve_target_window (env : RenderEnv) (hdc : Nat) (a : AppData) :
    AppData :=
  let window := env.windowFromDC hdc
  if window ≠ a.window then
    { a with
      window := window
      input_collector := InputCollector.new window
      client_rect := get_client_rect env.inputEnv window }
  else a

/-- `poll_client_rect`: refresh the cached client size once (guarded by a
`std::sync::Once`), then return the cached value. -/
def poll_client_rect (env : RenderEnv) (w : GlWorld) : (Int × Int) × GlWorld :=
  if w.onceFired then (w.app.client_rect, w)
  else
    let a := { w.app with
      client_rect := get_client_rect env.inputEnv w.app.window }
    (a.client_rect, { w with app := a, onceFired := true })

/-- `OpenGLApp::render`.  Returns `none` where the source panics (a failed
`wglMakeCurrent(..).unwrap()`); otherwise the world after the call.
Painter submission and tessellation are external sinks with no modelled
state, but the branch structure (empty-shapes short circuit versus full
paint) is kept. -/
def render (env : RenderEnv) (hdc : Nat) (w : GlWorld) : Option GlWorld :=
  let a := resolve_target_window env hdc w.app
  let o_context := w.glCurrent
  if env.makeCurrentOk hdc a.gl_context then
    let w1 : GlWorld := { w with app := a, glCurrent := a.gl_context }
    let ic := (w1.app.input_collector.collect_input env.inputEnv env.ctx).2
    let w2 : GlWorld := { w1 with app := { w1.app with input_collector := ic } }
    let output := env.uiOutput
    let w3 : GlWorld :=
      if output.copied_text ≠ "" ∧ env.clipboardWriteOk then
        { w2 with clipboard := some output.copied_text }
      else w2
    if output.shapes.isEmpty then
      if env.makeCurrentOk hdc o_context then
        some { w3 with glCurrent := o_context }
      else none
    else
      let w4 := (poll_client_rect env w3).2
      if env.makeCurrentOk hdc o_context then
        some { w4 with glCurrent := o_context }
      else none
  else none

/-!  Helper lemmas shared by the claim theorems. -/

theorem InputCollector.alter_modifiers_events (c : InputCollector)
    (m : Modifiers) : (c.alter_modifiers m).events = c.events := by
  unfold InputCollector.alter_modifiers
  cases c.modifiers <;> rfl

theorem InputCollector.alter_modifiers_hwnd (c : InputCollector)
    (m : Modifiers) : (c.alter_modifiers m).hwnd = c.hwnd := by
  unfold InputCollector.alter_modifiers
  cases c.modifiers <;> rfl

theorem InputCollector.push_modifiers (c : InputCollector) (e : Event) :
    (c.push e).modifiers = c.modifiers := rfl

theorem InputCollector.push_events (c : InputCollector) (e : Event) :
    (c.push e).events = c.events ++ [e] := rfl

theorem InputCollector.alter_modifiers_of_none (c : InputCollector)
    (m : Modifiers) (h : c.modifiers = none) : c.alter_modifiers m = c := by
  unfold InputCollector.alter_modifiers
  rw [h]

theorem InputCollector.alter_modifiers_of_some (c : InputCollector)
    (m m0 : Modifiers) (h : c.modifiers = some m0) :
    c.alter_modifiers m = { c with modifiers := some m } := by
  unfold InputCollector.alter_modifiers
  rw [h]

/-- C2: `collect_input` moves the entire pending event queue into the
returned snapshot in insertion order and leaves the queue empty, so a
second `collect_input` with no intervening `process` returns a snapshot
whose event sequence is empty. -/
theorem c2_collect_input_drains_exactly_once (env env' : InputEnv)
    (ctx ctx' : EguiCtx) (c : InputCollector) :
    (c.collect_input env ctx).1.events = c.events ∧
    (c.collect_input env ctx).2.events = [] ∧
    (((c.collect_input env ctx).2).collect_input env' ctx').1.events = [] := by
  simp [InputCollector.collect_input]

/-- C10: `process` is not total over arbitrary parameters: an extra-button
down message whose `wparam` high 16 bits contain neither `XBUTTON1` nor
`XBUTTON2` reaches the `unreachable!()` branch and panics (modelled as
`none`) instead of classifying the message as unrecognized. -/
theorem c10_xbutton_process_panics (env : InputEnv) (c : InputCollector)
    (lparam : Nat) :
    c.process env WM_XBUTTONDOWN 0 lparam = none := by
  simp [InputCollector.process, WM_XBUTTONDOWN, WM_MOUSEMOVE, WM_LBUTTONDOWN,
    WM_LBUTTONDBLCLK, WM_LBUTTONUP, WM_RBUTTONDOWN, WM_RBUTTONDBLCLK,
    WM_RBUTTONUP, WM_MBUTTONDOWN, WM_MBUTTONDBLCLK, WM_MBUTTONUP,
    WM_XBUTTONDBLCLK, XBUTTON1, XBUTTON2]

/-- C6: the window-resolution step of `render`: when the window owning the
device context differs from the recorded one, the target window is
replaced, the input collector is replaced by a fresh one for the new window
(events discarded, modifier snapshot back to `none`), and the cached client
size is reset from a fresh query of the new window; when the window is
unchanged, the step leaves the app data untouched. -/
theorem c6_window_change_resets_collector_and_size (env : RenderEnv)
    (hdc : Nat) (a : AppData) :
    (env.windowFromDC hdc ≠ a.window →
      (resolve_target_window env hdc a).window = env.windowFromDC hdc ∧
      (resolve_target_window env hdc a).input_collector =
        InputCollector.new (env.windowFromDC hdc) ∧
      (resolve_target_window env hdc a).input_collector.events = [] ∧
      (resolve_target_window env hdc a).input_collector.modifiers = none ∧
      (resolve_target_window env hdc a).client_rect =
        get_client_rect env.inputEnv (env.windowFromDC hdc)) ∧
    (env.windowFromDC hdc = a.window → resolve_target_window env hdc a = a) := by
  constructor
  · intro h
    simp [resolve_target_window, h, InputCollector.new]
  · intro h
    simp [resolve_target_window, h]

/-- Witness for C6 at concrete inputs: a changed window (5 versus recorded
4) resets collector and cached size; an unchanged window leaves the data
untouched. -/
def envW : InputEnv :=
  { asyncCtrl := false
    asyncShift := false
    clipboard := none
    clientRect := fun _ => ⟨0, 0, 640, 480⟩
    systemTime := 0 }

def renderEnv6 : RenderEnv :=
  { windowFromDC := fun _ => 5
    makeCurrentOk := fun _ _ => true
    clipboardWriteOk := true
    uiOutput := { shapes := [], copied_text := "" }
    ctx := ⟨0, 0⟩
    inputEnv := envW }

def appData4 : AppData :=
  { gl_context := 7
    window := 4
    input_collector := InputCollector.new 4
    client_rect := (1, 1) }

def appData5 : AppData :=
  { gl_context := 7
    window := 5
    input_collector := InputCollector.new 5
    client_rect := (1, 1) }

theorem c6_witness :
    ((resolve_target_window renderEnv6 0 appData4).window = 5 ∧
      (resolve_target_window renderEnv6 0 appData4).input_collector =
        InputCollector.new 5 ∧
      (resolve_target_window renderEnv6 0 appData4).input_collector.events = [] ∧
      (resolve_target_window renderEnv6 0 appData4).input_collector.modifiers =
        none ∧
      (resolve_target_window renderEnv6 0 appData4).client_rect =
        get_client_rect envW 5) ∧
    resolve_target_window renderEnv6 0 appData5 = appData5 :=
  ⟨(c6_window_change_resets_collector_and_size renderEnv6 0 appData4).1
      (by decide),
   (c6_window_change_resets_collector_and_size renderEnv6 0 appData5).2
      (by decide)⟩

/-- C8: `init_with_state_context` fails on its precondition checks (the
two `panic_msg!` sites, modelled as the errors `doubleInit` and
`invalidWindow`) exactly when the instance was already initialized or the
window handle is the invalid sentinel; a first call with a valid handle
never fails on these checks. -/
theorem c8_init_precondition_failures (env : InitEnv) (hwndCell : Option Nat)
    (hdc window : Nat) :
    (init_with_state_context env hwndCell hdc window =
        Except.error InitErr.doubleInit ∨
      init_with_state_context env hwndCell hdc window =
        Except.error InitErr.invalidWindow) ↔
    (hwndCell.isSome = true ∨ window = INVALID_HWND) := by
  unfold init_with_state_context
  by_cases h1 : hwndCell.isSome
  · simp [h1]
  · simp only [h1, Bool.false_eq_true, false_or, if_false]
    by_cases h2 : window = INVALID_HWND
    · simp [h2]
    · simp only [h2, if_false, iff_false]
      cases env.createContext with
      | none => simp
      | some gl =>
          by_cases h3 : env.makeCurrentOk hdc gl
          · by_cases h4 : env.makeCurrentOk hdc env.o_context <;> simp [h3, h4]
          · simp [h3]

/-- C1: every `render` call that returns leaves the GL context current on
the calling thread equal to the context current before the call, on both
the empty-shapes short-circuit path and the full tessellate-and-paint
path. -/
theorem c1_render_restores_gl_context (env : RenderEnv) (hdc : Nat)
    (w w' : GlWorld) (h : render env hdc w = some w') :
    w'.glCurrent = w.glCurrent := by
  unfold render at h
  dsimp only at h
  split at h
  · split at h
    · split at h
      · obtain rfl := Option.some.inj h
        rfl
      · exact absurd h (by simp)
    · split at h
      · obtain rfl := Option.some.inj h
        rfl
      · exact absurd h (by simp)
  · exact absurd h (by simp)

/-- Witness for C1: a concrete `render` call (empty-shapes path) returns
and leaves the originally-current context 9 current. -/
def w0 : GlWorld :=
  { glCurrent := 9
    clipboard := none
    onceFired := false
    app := appData5 }

theorem c1_witness : (render renderEnv6 0 w0).map GlWorld.glCurrent =
    some w0.glCurrent := by
  obtain ⟨w', hw⟩ : ∃ w', render renderEnv6 0 w0 = some w' := ⟨_, rfl⟩
  rw [hw]
  exact congrArg some (c1_render_restores_gl_context renderEnv6 0 w0 w' hw)

attribute [simp] WM_MOUSEMOVE WM_LBUTTONDOWN WM_LBUTTONUP WM_LBUTTONDBLCLK
  WM_RBUTTONDOWN WM_RBUTTONUP WM_RBUTTONDBLCLK WM_MBUTTONDOWN WM_MBUTTONUP
  WM_MBUTTONDBLCLK WM_MOUSEWHEEL WM_XBUTTONDOWN WM_XBUTTONUP WM_XBUTTONDBLCLK
  WM_MOUSEHWHEEL WM_KEYDOWN WM_KEYUP WM_CHAR WM_SYSKEYDOWN WM_SYSKEYUP
  WM_UNICHAR MK_CONTROL MK_SHIFT WHEEL_DELTA KF_REPEAT XBUTTON1 XBUTTON2
  VK_BACK VK_TAB VK_RETURN VK_ESCAPE VK_SPACE VK_PRIOR VK_NEXT VK_END VK_HOME
  VK_LEFT VK_UP VK_RIGHT VK_DOWN VK_INSERT VK_DELETE

/-- C4: wheel messages (vertical and horizontal) decode the delta as the
signed 16-bit high half of `wparam` scaled by 10 over the wheel quantum
(so one full click is exactly 10); without the ctrl bit exactly one scroll
event is appended, vertical-only and with no modifiers attached; with the
ctrl bit a zoom event of factor 1.5 (positive delta) or 0.5 (negative
delta) is appended and no scroll event. -/
theorem c4_wheel_delta_scroll_zoom (env : InputEnv) (c : InputCollector)
    (umsg wparam lparam : Nat)
    (hmsg : umsg = WM_MOUSEWHEEL ∨ umsg = WM_MOUSEHWHEEL) :
    wheel_delta (120 <<< 16) = 10 ∧
    (wparam &&& MK_CONTROL = 0 →
      (c.process env umsg wparam lparam).map (fun p => p.1.events) =
        some (c.events ++ [Event.MouseWheel MouseWheelUnit.Point
          ⟨0, wheel_delta wparam⟩ Modifiers.NONE])) ∧
    (wparam &&& MK_CONTROL ≠ 0 → 0 < wheel_delta wparam →
      (c.process env umsg wparam lparam).map (fun p => p.1.events) =
        some (c.events ++ [Event.Zoom ((3 : Rat) / 2)])) ∧
    (wparam &&& MK_CONTROL ≠ 0 → wheel_delta wparam < 0 →
      (c.process env umsg wparam lparam).map (fun p => p.1.events) =
        some (c.events ++ [Event.Zoom ((1 : Rat) / 2)])) := by
  refine ⟨by norm_num [wheel_delta, toI16, WHEEL_DELTA], ?_, ?_, ?_⟩
  · intro h
    simp only [MK_CONTROL] at h
    rcases hmsg with rfl | rfl <;>
      simp [InputCollector.process, InputCollector.push,
        InputCollector.alter_modifiers_events, h]
  · intro h hpos
    simp only [MK_CONTROL] at h
    rcases hmsg with rfl | rfl <;>
      simp [InputCollector.process, InputCollector.push,
        InputCollector.alter_modifiers_events, h, hpos]
  · intro h hneg
    simp only [MK_CONTROL] at h
    have hnpos : ¬ 0 < wheel_delta wparam := not_lt.mpr (le_of_lt hneg)
    rcases hmsg with rfl | rfl <;>
      simp [InputCollector.process, InputCollector.push,
        InputCollector.alter_modifiers_events, h, hnpos]

/-- Witness for C4 at concrete inputs: one full click (delta 120 in the
high half) with no ctrl bit yields the single 10.0 vertical scroll event;
with the ctrl bit, positive delta yields zoom 1.5 and negative delta zoom
0.5. -/
theorem c4_witness :
    ((InputCollector.new 0).process envW WM_MOUSEWHEEL (120 <<< 16) 0).map
        (fun p => p.1.events) =
      some ((InputCollector.new 0).events ++ [Event.MouseWheel
        MouseWheelUnit.Point ⟨0, wheel_delta (120 <<< 16)⟩ Modifiers.NONE]) ∧
    ((InputCollector.new 0).process envW WM_MOUSEWHEEL 0x780008 0).map
        (fun p => p.1.events) =
      some ((InputCollector.new 0).events ++ [Event.Zoom ((3 : Rat) / 2)]) ∧
    ((InputCollector.new 0).process envW WM_MOUSEWHEEL 0xFF880008 0).map
        (fun p => p.1.events) =
      some ((InputCollector.new 0).events ++ [Event.Zoom ((1 : Rat) / 2)]) :=
  ⟨(c4_wheel_delta_scroll_zoom envW (InputCollector.new 0) WM_MOUSEWHEEL
      (120 <<< 16) 0 (Or.inl rfl)).2.1 (by decide),
   (c4_wheel_delta_scroll_zoom envW (InputCollector.new 0) WM_MOUSEWHEEL
      0x780008 0 (Or.inl rfl)).2.2.1 (by decide)
      (by norm_num [wheel_delta, toI16, WHEEL_DELTA,
        show (0x780008 : Nat) >>> 16 = 120 from rfl]),
   (c4_wheel_delta_scroll_zoom envW (InputCollector.new 0) WM_MOUSEWHEEL
      0xFF880008 0 (Or.inl rfl)).2.2.2 (by decide)
      (by norm_num [wheel_delta, toI16, WHEEL_DELTA,
        show (0xFF880008 : Nat) >>> 16 = 65416 from rfl])⟩

/-- The virtual-key codes that `get_key` resolves: the three contiguous
arithmetic ranges plus the explicit lookup list. -/
def is_mapped_vk (w : Nat) : Prop :=
  (0x30 ≤ w ∧ w ≤ 0x39) ∨ (0x41 ≤ w ∧ w ≤ 0x5A) ∨ (0x70 ≤ w ∧ w ≤ 0x83) ∨
  w = VK_DOWN ∨ w = VK_LEFT ∨ w = VK_RIGHT ∨ w = VK_UP ∨ w = VK_ESCAPE ∨
  w = VK_TAB ∨ w = VK_BACK ∨ w = VK_RETURN ∨ w = VK_SPACE ∨ w = VK_INSERT ∨
  w = VK_DELETE ∨ w = VK_HOME ∨ w = VK_END ∨ w = VK_PRIOR ∨ w = VK_NEXT

instance : DecidablePred is_mapped_vk := fun w => by
  unfold is_mapped_vk
  infer_instance

/-- C5: `get_key` sends the digit, letter and function-key ranges through
their constant arithmetic offsets (0x30 to zero, 0x39 to nine, 0x41 to A,
0x5A to Z, 0x70 to F1, 0x83 to F20), resolves the listed
navigation/editing keys through the explicit lookup, and resolves every
virtual key outside all these cases to no key, in which case a key message
appends no event to the queue. -/
theorem c5_key_mapping :
    ((∀ w, 0x30 ≤ w → w ≤ 0x39 → get_key w = some ⟨w - 0x10⟩) ∧
     (∀ w, 0x41 ≤ w → w ≤ 0x5A → get_key w = some ⟨w - 0x17⟩) ∧
     (∀ w, 0x70 ≤ w → w ≤ 0x83 → get_key w = some ⟨w - 0x2C⟩) ∧
     get_key 0x30 = some Key.Num0 ∧ get_key 0x39 = some Key.Num9 ∧
     get_key 0x41 = some Key.A ∧ get_key 0x5A = some Key.Z ∧
     get_key 0x70 = some Key.F1 ∧ get_key 0x83 = some Key.F20 ∧
     get_key VK_DOWN = some Key.ArrowDown ∧
     get_key VK_LEFT = some Key.ArrowLeft ∧
     get_key VK_RIGHT = some Key.ArrowRight ∧
     get_key VK_UP = some Key.ArrowUp ∧
     get_key VK_ESCAPE = some Key.Escape ∧
     get_key VK_TAB = some Key.Tab ∧
     get_key VK_BACK = some Key.Backspace ∧
     get_key VK_RETURN = some Key.Enter ∧
     get_key VK_SPACE = some Key.Space ∧
     get_key VK_INSERT = some Key.Insert ∧
     get_key VK_DELETE = some Key.Delete ∧
     get_key VK_HOME = some Key.Home ∧
     get_key VK_END = some Key.End ∧
     get_key VK_PRIOR = some Key.PageUp ∧
     get_key VK_NEXT = some Key.PageDown) ∧
    (∀ w, w < 65536 → ¬ is_mapped_vk w →
      get_key w = none ∧
      ∀ (env : InputEnv) (c : InputCollector) (lparam : Nat),
        (c.process env WM_KEYUP w lparam).map (fun p => p.1.events) =
          some c.events) := by
  constructor
  · refine ⟨?_, ?_, ?_, ?_⟩
    · intro w h1 h2
      unfold get_key
      rw [if_pos ⟨h1, h2⟩]
    · intro w h1 h2
      unfold get_key
      rw [if_neg (by omega), if_pos ⟨h1, h2⟩]
    · intro w h1 h2
      unfold get_key
      rw [if_neg (by omega), if_neg (by omega), if_pos ⟨h1, h2⟩]
    · decide
  · intro w hw hnm
    unfold is_mapped_vk at hnm
    push_neg at hnm
    obtain ⟨n1, n2, n3, n4, n5, n6, n7, n8, n9, n10, n11, n12, n13, n14, n15,
      n16, n17, n18⟩ := hnm
    simp only [VK_DOWN, VK_LEFT, VK_RIGHT, VK_UP, VK_ESCAPE, VK_TAB, VK_BACK,
      VK_RETURN, VK_SPACE, VK_INSERT, VK_DELETE, VK_HOME, VK_END, VK_PRIOR,
      VK_NEXT] at n4 n5 n6 n7 n8 n9 n10 n11 n12 n13 n14 n15 n16 n17 n18
    have hg : get_key w = none := by
      simp only [get_key, Nat.mod_eq_of_lt hw, VK_DOWN, VK_LEFT, VK_RIGHT,
        VK_UP, VK_ESCAPE, VK_TAB, VK_BACK, VK_RETURN, VK_SPACE, VK_INSERT,
        VK_DELETE, VK_HOME, VK_END, VK_PRIOR, VK_NEXT]
      rw [if_neg (by omega), if_neg (by omega), if_neg (by omega)]
      simp [n4, n5, n6, n7, n8, n9, n10, n11, n12, n13, n14, n15, n16, n17, n18]
    refine ⟨hg, fun env c lparam => ?_⟩
    simp [InputCollector.process, hg]

/-- Witness for C5 at a concrete input: virtual key 0x07 is outside every
mapped case, resolves to no key, and a key-up message for it appends no
event. -/
theorem c5_witness :
    get_key 0x07 = none ∧
    ((InputCollector.new 0).process envW WM_KEYUP 0x07 0).map
        (fun p => p.1.events) = some (InputCollector.new 0).events :=
  ⟨(c5_key_mapping.2 0x07 (by decide) (by decide)).1,
   (c5_key_mapping.2 0x07 (by decide) (by decide)).2 envW
     (InputCollector.new 0) 0⟩

/-- Input environment with ctrl held and an *empty string* as the
clipboard content (`get_contents` returned `Ok("")`). -/
def envEmptyClip : InputEnv :=
  { asyncCtrl := true
    asyncShift := false
    clipboard := some ""
    clientRect := fun _ => ⟨0, 0, 0, 0⟩
    systemTime := 0 }

/-- Counterexample to C3 as stated: with ctrl held and the clipboard
holding *empty* content (`Some("")`), a key-down for the paste key still
appends a text-insertion event (with empty payload) in addition to the
key-down event — the source never checks the drained content for
emptiness, only for absence. -/
theorem c3_counterexample :
    ((InputCollector.new 0).process envEmptyClip WM_KEYDOWN 0x56 0).map
        (fun p => p.1.events) =
      some [Event.Text "",
        Event.Key true (get_key_modifiers envEmptyClip WM_KEYDOWN) Key.V
          false none] := by
  decide

/-- C3 (amended): for a key-down resolving to the paste key with ctrl
held, an *absent* clipboard (`None`) yields only the key-down event, while
*present* clipboard content — even the empty string — yields exactly one
text-insertion event carrying that content in addition to the key-down
event. -/
theorem c3_ctrl_v_paste_events (env : InputEnv) (c : InputCollector)
    (umsg lparam : Nat)
    (hmsg : umsg = WM_KEYDOWN ∨ umsg = WM_SYSKEYDOWN)
    (hctrl : env.asyncCtrl = true) :
    (env.clipboard = none →
      (c.process env umsg 0x56 lparam).map (fun p => p.1.events) =
        some (c.events ++ [Event.Key true (get_key_modifiers env umsg) Key.V
          (lparam &&& KF_REPEAT > 0) none])) ∧
    (∀ s, env.clipboard = some s →
      (c.process env umsg 0x56 lparam).map (fun p => p.1.events) =
        some (c.events ++ [Event.Text s,
          Event.Key true (get_key_modifiers env umsg) Key.V
            (lparam &&& KF_REPEAT > 0) none])) := by
  have hv : get_key 0x56 = some Key.V := by decide
  constructor
  · intro hclip
    rcases hmsg with rfl | rfl <;>
      simp [InputCollector.process, InputCollector.push, hv,
        get_clipboard_text, hclip, get_key_modifiers, hctrl, Key.V, Key.C,
        Key.X]
  · intro s hclip
    rcases hmsg with rfl | rfl <;>
      simp [InputCollector.process, InputCollector.push, hv,
        get_clipboard_text, hclip, get_key_modifiers, hctrl, Key.V, Key.C,
        Key.X]

/-- Input environment with ctrl held and no clipboard content. -/
def envClipNone : InputEnv :=
  { asyncCtrl := true
    asyncShift := false
    clipboard := none
    clientRect := fun _ => ⟨0, 0, 0, 0⟩
    systemTime := 0 }

/-- Input environment with ctrl held and clipboard content "hi". -/
def envClipHi : InputEnv :=
  { asyncCtrl := true
    asyncShift := false
    clipboard := some "hi"
    clientRect := fun _ => ⟨0, 0, 0, 0⟩
    systemTime := 0 }

/-- Witness for the amended C3 at concrete inputs: ctrl+V with no
clipboard yields only the key event; with clipboard "hi" it yields the
text event then the key event. -/
theorem c3_witness :
    ((InputCollector.new 0).process envClipNone WM_KEYDOWN 0x56 0).map
        (fun p => p.1.events) =
      some ((InputCollector.new 0).events ++
        [Event.Key true (get_key_modifiers envClipNone WM_KEYDOWN) Key.V
          (0 &&& KF_REPEAT > 0) none]) ∧
    ((InputCollector.new 0).process envClipHi WM_KEYDOWN 0x56 0).map
        (fun p => p.1.events) =
      some ((InputCollector.new 0).events ++
        [Event.Text "hi",
          Event.Key true (get_key_modifiers envClipHi WM_KEYDOWN) Key.V
            (0 &&& KF_REPEAT > 0) none]) :=
  ⟨(c3_ctrl_v_paste_events envClipNone (InputCollector.new 0) WM_KEYDOWN 0
      (Or.inl rfl) rfl).1 rfl,
   (c3_ctrl_v_paste_events envClipHi (InputCollector.new 0) WM_KEYDOWN 0
      (Or.inl rfl) rfl).2 "hi" rfl⟩

/-- Counterexample to C7 as stated: the source derives alt by comparing
the message against the extended key-*down* constant only, so an extended
key-up (`WM_SYSKEYUP`) stores a baseline with alt = false, not alt =
true. -/
theorem c7_counterexample :
    (get_key_modifiers envW WM_SYSKEYUP).alt = false ∧
    ((InputCollector.new 0).process envW WM_SYSKEYUP 0x41 0).map
        (fun p => p.1.modifiers) =
      some (some
        { alt := false, ctrl := false, shift := false, mac_cmd := false,
          command := false }) := by
  exact ⟨rfl, by decide⟩

/-- C7 (amended): every key-down and key-up message, including the
extended variants, stores as the new baseline the snapshot with ctrl and
shift from the live key-state queries and alt equal to whether the message
is the extended key-*down* message; key-up uses the same derivation
function, so an extended key-up yields alt = false. -/
theorem c7_key_modifiers_derivation (env : InputEnv) (c : InputCollector)
    (umsg wparam lparam : Nat)
    (hmsg : umsg = WM_KEYDOWN ∨ umsg = WM_SYSKEYDOWN ∨ umsg = WM_KEYUP ∨
      umsg = WM_SYSKEYUP) :
    get_key_modifiers env umsg =
      { alt := umsg == WM_SYSKEYDOWN, ctrl := env.asyncCtrl,
        shift := env.asyncShift, mac_cmd := false,
        command := env.asyncCtrl } ∧
    (c.process env umsg wparam lparam).map (fun p => p.1.modifiers) =
      some (some (get_key_modifiers env umsg)) := by
  refine ⟨rfl, ?_⟩
  rcases hmsg with rfl | rfl | rfl | rfl <;>
    cases hclip : get_clipboard_text env <;>
    cases hk : get_key wparam <;>
      simp [InputCollector.process, InputCollector.push, hclip, hk,
        apply_ite InputCollector.modifiers]

/-- Witness for the amended C7: an extended key-up message stores the
baseline with alt = false (the `==`-comparison against the key-down
constant is false). -/
theorem c7_witness :
    get_key_modifiers envW WM_SYSKEYUP =
      { alt := WM_SYSKEYUP == WM_SYSKEYDOWN, ctrl := envW.asyncCtrl,
        shift := envW.asyncShift, mac_cmd := false,
        command := envW.asyncCtrl } ∧
    ((InputCollector.new 0).process envW WM_SYSKEYUP 0x41 0).map
        (fun p => p.1.modifiers) =
      some (some (get_key_modifiers envW WM_SYSKEYUP)) :=
  c7_key_modifiers_derivation envW (InputCollector.new 0) WM_SYSKEYUP 0x41 0
    (Or.inr (Or.inr (Or.inr rfl)))

/-- `pushChar` never touches the modifier snapshot. -/
theorem InputCollector.pushChar_modifiers (c : InputCollector) (w : Nat) :
    (c.pushChar w).modifiers = c.modifiers := by
  unfold InputCollector.pushChar
  dsimp only
  repeat' split
  all_goals rfl

/-- Iterated message processing, as the window-procedure hook feeds the
collector; a panic in any step propagates. -/
def processList (env : InputEnv) (c : InputCollector) :
    List (Nat × Nat × Nat) → Option InputCollector
  | [] => some c
  | m :: rest =>
      match c.process env m.1 m.2.1 m.2.2 with
      | some p => processList env p.1 rest
      | none => none

/-- The keyboard messages: the only `process` arms that write the
modifier baseline unconditionally. -/
def is_keyboard_msg (umsg : Nat) : Prop :=
  umsg = WM_KEYDOWN ∨ umsg = WM_SYSKEYDOWN ∨ umsg = WM_KEYUP ∨
  umsg = WM_SYSKEYUP

instance : DecidablePred is_keyboard_msg := fun u => by
  unfold is_keyboard_msg
  infer_instance

/-- The mouse messages: the contiguous `WM_MOUSEMOVE`–`WM_MOUSEHWHEEL`
block (moves, buttons, extra buttons, wheels). -/
def is_mouse_msg (umsg : Nat) : Prop :=
  WM_MOUSEMOVE ≤ umsg ∧ umsg ≤ WM_MOUSEHWHEEL

instance : DecidablePred is_mouse_msg := fun u => by
  unfold is_mouse_msg
  infer_instance

/-- A non-keyboard message can never originate a modifier snapshot: if the
snapshot is `none` before, it is `none` after. -/
theorem process_nonkeyboard_preserves_none (env : InputEnv)
    (c : InputCollector) (umsg wparam lparam : Nat)
    (hk : ¬ is_keyboard_msg umsg) (hm : c.modifiers = none) :
    ∀ p, c.process env umsg wparam lparam = some p →
      p.1.modifiers = none := by
  intro p hp
  unfold is_keyboard_msg at hk
  push_neg at hk
  obtain ⟨k1, k2, k3, k4⟩ := hk
  have ha : ∀ m, c.alter_modifiers m = c := fun m =>
    c.alter_modifiers_of_none m hm
  unfold InputCollector.process at hp
  by_cases h01 : umsg = WM_MOUSEMOVE
  case pos =>
    rw [if_pos h01] at hp
    dsimp only at hp
    obtain rfl := Option.some.inj hp
    simp [InputCollector.push, ha, hm]
  rw [if_neg h01] at hp
  by_cases h02 : umsg = WM_LBUTTONDOWN ∨ umsg = WM_LBUTTONDBLCLK
  case pos =>
    rw [if_pos h02] at hp
    dsimp only at hp
    obtain rfl := Option.some.inj hp
    simp [InputCollector.push, ha, hm]
  rw [if_neg h02] at hp
  by_cases h03 : umsg = WM_LBUTTONUP
  case pos =>
    rw [if_pos h03] at hp
    dsimp only at hp
    obtain rfl := Option.some.inj hp
    simp [InputCollector.push, ha, hm]
  rw [if_neg h03] at hp
  by_cases h04 : umsg = WM_RBUTTONDOWN ∨ umsg = WM_RBUTTONDBLCLK
  case pos =>
    rw [if_pos h04] at hp
    dsimp only at hp
    obtain rfl := Option.some.inj hp
    simp [InputCollector.push, ha, hm]
  rw [if_neg h04] at hp
  by_cases h05 : umsg = WM_RBUTTONUP
  case pos =>
    rw [if_pos h05] at hp
    dsimp only at hp
    obtain rfl := Option.some.inj hp
    simp [InputCollector.push, ha, hm]
  rw [if_neg h05] at hp
  by_cases h06 : umsg = WM_MBUTTONDOWN ∨ umsg = WM_MBUTTONDBLCLK
  case pos =>
    rw [if_pos h06] at hp
    dsimp only at hp
    obtain rfl := Option.some.inj hp
    simp [InputCollector.push, ha, hm]
  rw [if_neg h06] at hp
  by_cases h07 : umsg = WM_MBUTTONUP
  case pos =>
    rw [if_pos h07] at hp
    dsimp only at hp
    obtain rfl := Option.some.inj hp
    simp [InputCollector.push, ha, hm]
  rw [if_neg h07] at hp
  by_cases h08 : umsg = WM_XBUTTONDOWN ∨ umsg = WM_XBUTTONDBLCLK
  case pos =>
    rw [if_pos h08] at hp
    dsimp only at hp
    repeat' split at hp
    all_goals
      first
        | exact Option.noConfusion hp
        | (obtain rfl := Option.some.inj hp
           simp [InputCollector.push, ha, hm])
  rw [if_neg h08] at hp
  by_cases h09 : umsg = WM_XBUTTONUP
  case pos =>
    rw [if_pos h09] at hp
    dsimp only at hp
    repeat' split at hp
    all_goals
      first
        | exact Option.noConfusion hp
        | (obtain rfl := Option.some.inj hp
           simp [InputCollector.push, ha, hm])
  rw [if_neg h09] at hp
  by_cases h10 : umsg = WM_UNICHAR
  case pos =>
    rw [if_pos h10] at hp
    obtain rfl := Option.some.inj hp
    simp [InputCollector.pushChar_modifiers, hm]
  rw [if_neg h10] at hp
  by_cases h11 : umsg = WM_CHAR
  case pos =>
    rw [if_pos h11] at hp
    obtain rfl := Option.some.inj hp
    simp [InputCollector.pushChar_modifiers, hm]
  rw [if_neg h11] at hp
  by_cases h12 : umsg = WM_MOUSEWHEEL
  case pos =>
    rw [if_pos h12] at hp
    dsimp only at hp
    repeat' split at hp
    all_goals
      first
        | exact Option.noConfusion hp
        | (obtain rfl := Option.some.inj hp
           simp [InputCollector.push, ha, hm])
  rw [if_neg h12] at hp
  by_cases h13 : umsg = WM_MOUSEHWHEEL
  case pos =>
    rw [if_pos h13] at hp
    dsimp only at hp
    repeat' split at hp
    all_goals
      first
        | exact Option.noConfusion hp
        | (obtain rfl := Option.some.inj hp
           simp [InputCollector.push, ha, hm])
  rw [if_neg h13] at hp
  by_cases h14 : umsg = WM_KEYDOWN ∨ umsg = WM_SYSKEYDOWN
  case pos =>
    rcases h14 with rfl | rfl
    · exact absurd rfl k1
    · exact absurd rfl k2
  rw [if_neg h14] at hp
  by_cases h15 : umsg = WM_KEYUP ∨ umsg = WM_SYSKEYUP
  case pos =>
    rcases h15 with rfl | rfl
    · exact absurd rfl k3
    · exact absurd rfl k4
  rw [if_neg h15] at hp
  obtain rfl := Option.some.inj hp
  exact hm

/-- Iterating non-keyboard messages from a snapshot-free collector keeps
the snapshot free (or panics). -/
theorem processList_preserves_none (env : InputEnv)
    (msgs : List (Nat × Nat × Nat)) :
    ∀ c : InputCollector, c.modifiers = none →
      (∀ m ∈ msgs, ¬ is_keyboard_msg m.1) →
      (processList env c msgs).bind InputCollector.modifiers = none := by
  induction msgs with
  | nil =>
      intro c hm _
      simp [processList, hm]
  | cons m rest ih =>
      intro c hm hall
      unfold processList
      cases hp : c.process env m.1 m.2.1 m.2.2 with
      | none => simp
      | some p =>
          exact ih p.1
            (process_nonkeyboard_preserves_none env c m.1 m.2.1 m.2.2
              (hall m (List.mem_cons_self m rest)) hm p hp)
            (fun m' h' => hall m' (List.mem_cons_of_mem m h'))

/-- C9: the modifier snapshot of a fresh collector stays `none` across any
message sequence containing no keyboard message (mouse messages never
originate it), and once the snapshot is `Some`, a mouse message overwrites
(refines) it with the mouse-derived modifiers. -/
theorem c9_modifiers_none_until_keyboard :
    (∀ (env : InputEnv) (hwnd : Nat) (msgs : List (Nat × Nat × Nat)),
      (∀ m ∈ msgs, ¬ is_keyboard_msg m.1) →
      (processList env (InputCollector.new hwnd) msgs).bind
        InputCollector.modifiers = none) ∧
    (∀ (env : InputEnv) (c : InputCollector) (umsg wparam lparam : Nat),
      is_mouse_msg umsg → c.modifiers.isSome = true →
      (c.process env umsg wparam lparam).bind (fun p => p.1.modifiers) =
        (c.process env umsg wparam lparam).map
          (fun _ => get_mouse_modifiers wparam)) := by
  constructor
  · intro env hwnd msgs hall
    exact processList_preserves_none env msgs (InputCollector.new hwnd) rfl
      hall
  · intro env c umsg wparam lparam hmouse hsome
    obtain ⟨m0, hm0⟩ := Option.isSome_iff_exists.mp hsome
    unfold is_mouse_msg at hmouse
    have ha : ∀ m, c.alter_modifiers m = { c with modifiers := some m } :=
      fun m => c.alter_modifiers_of_some m m0 hm0
    unfold InputCollector.process
    by_cases h01 : umsg = WM_MOUSEMOVE
    case pos =>
      rw [if_pos h01]
      simp [InputCollector.push, ha]
    rw [if_neg h01]
    by_cases h02 : umsg = WM_LBUTTONDOWN ∨ umsg = WM_LBUTTONDBLCLK
    case pos =>
      rw [if_pos h02]
      simp [InputCollector.push, ha]
    rw [if_neg h02]
    by_cases h03 : umsg = WM_LBUTTONUP
    case pos =>
      rw [if_pos h03]
      simp [InputCollector.push, ha]
    rw [if_neg h03]
    by_cases h04 : umsg = WM_RBUTTONDOWN ∨ umsg = WM_RBUTTONDBLCLK
    case pos =>
      rw [if_pos h04]
      simp [InputCollector.push, ha]
    rw [if_neg h04]
    by_cases h05 : umsg = WM_RBUTTONUP
    case pos =>
      rw [if_pos h05]
      simp [InputCollector.push, ha]
    rw [if_neg h05]
    by_cases h06 : umsg = WM_MBUTTONDOWN ∨ umsg = WM_MBUTTONDBLCLK
    case pos =>
      rw [if_pos h06]
      simp [InputCollector.push, ha]
    rw [if_neg h06]
    by_cases h07 : umsg = WM_MBUTTONUP
    case pos =>
      rw [if_pos h07]
      simp [InputCollector.push, ha]
    rw [if_neg h07]
    by_cases h08 : umsg = WM_XBUTTONDOWN ∨ umsg = WM_XBUTTONDBLCLK
    case pos =>
      rw [if_pos h08]
      dsimp only
      repeat' split
      all_goals simp [InputCollector.push, ha]
    rw [if_neg h08]
    by_cases h09 : umsg = WM_XBUTTONUP
    case pos =>
      rw [if_pos h09]
      dsimp only
      repeat' split
      all_goals simp [InputCollector.push, ha]
    rw [if_neg h09]
    by_cases h10 : umsg = WM_UNICHAR
    case pos =>
      exfalso
      subst h10
      exact absurd hmouse (by decide)
    rw [if_neg h10]
    by_cases h11 : umsg = WM_CHAR
    case pos =>
      exfalso
      subst h11
      exact absurd hmouse (by decide)
    rw [if_neg h11]
    by_cases h12 : umsg = WM_MOUSEWHEEL
    case pos =>
      rw [if_pos h12]
      dsimp only
      repeat' split
      all_goals simp [InputCollector.push, ha]
    rw [if_neg h12]
    by_cases h13 : umsg = WM_MOUSEHWHEEL
    case pos =>
      rw [if_pos h13]
      dsimp only
      repeat' split
      all_goals simp [InputCollector.push, ha]
    rw [if_neg h13]
    by_cases h14 : umsg = WM_KEYDOWN ∨ umsg = WM_SYSKEYDOWN
    case pos =>
      exfalso
      rcases h14 with rfl | rfl <;> exact absurd hmouse (by decide)
    rw [if_neg h14]
    by_cases h15 : umsg = WM_KEYUP ∨ umsg = WM_SYSKEYUP
    case pos =>
      exfalso
      rcases h15 with rfl | rfl <;> exact absurd hmouse (by decide)
    exfalso
    simp only [WM_MOUSEMOVE, WM_LBUTTONDOWN, WM_LBUTTONDBLCLK, WM_LBUTTONUP,
      WM_RBUTTONDOWN, WM_RBUTTONDBLCLK, WM_RBUTTONUP, WM_MBUTTONDOWN,
      WM_MBUTTONDBLCLK, WM_MBUTTONUP, WM_XBUTTONDOWN, WM_XBUTTONDBLCLK,
      WM_XBUTTONUP, WM_MOUSEWHEEL,
      WM_MOUSEHWHEEL] at h01 h02 h03 h04 h05 h06 h07 h08 h09 h12 h13 hmouse
    omega

/-- A collector with an already-observed modifier snapshot, for the C9
witness. -/
def cSome : InputCollector :=
  { hwnd := 0, events := [], modifiers := some Modifiers.NONE }

/-- Witness for C9 at concrete inputs: a mouse-move processed by a fresh
collector leaves the snapshot `none`; a mouse-move with ctrl+shift button
bits processed by a collector that already has a snapshot overwrites it
with the mouse-derived modifiers. -/
theorem c9_witness :
    (processList envW (InputCollector.new 0) [(WM_MOUSEMOVE, 0, 0)]).bind
      InputCollector.modifiers = none ∧
    (cSome.process envW WM_MOUSEMOVE 12 0).bind (fun p => p.1.modifiers) =
      (cSome.process envW WM_MOUSEMOVE 12 0).map
        (fun _ => get_mouse_modifiers 12) :=
  ⟨c9_modifiers_none_until_keyboard.1 envW 0 [(WM_MOUSEMOVE, 0, 0)]
      (by decide),
   c9_modifiers_none_until_keyboard.2 envW cSome WM_MOUSEMOVE 12 0
      (by decide) (by decide)⟩
